import Mathlib

/-!
Verification of the portfolio-manager persistence and aggregation layer.

The Python source (src/modules/auth.py, src/modules/database.py,
src/modules/goals.py, src/modules/ai_advisor.py, src/modules/mutual_funds.py)
is shallowly embedded below: each sqlite table becomes a list of typed rows
plus an autoincrement counter, each operation becomes a pure function on a
`DB` value, monetary REAL columns become rationals, nullable columns become
`Option`, and the SHA-256 digest is an abstract parameter `sha : String →
String` (the code only ever composes it and compares its outputs for
equality).  Doc comments cite the embedded source lines.
-/

namespace Portfolio

/-- Row of the `users` table (database.py:25-36).  Columns: id (autoincrement),
username (UNIQUE NOT NULL), password_hash (NOT NULL), email, full_name, phone,
created_at, updated_at.  The timestamp columns are ISO strings supplied by the
caller (`datetime.now().isoformat()`); register_user always writes plain
strings for email/full_name/phone, so those are `String` here. -/
structure UserRow where
  id : Nat
  username : String
  password_hash : String
  email : String
  full_name : String
  phone : String
  created_at : String
  updated_at : String
deriving DecidableEq, Repr

/-- Row of the `user_preferences` table (database.py:39-51).  Columns: id,
user_id, theme, currency, risk_tolerance, investment_goal (nullable),
monthly_income (nullable REAL), monthly_expenses (nullable REAL). -/
structure PrefsRow where
  id : Nat
  user_id : Nat
  theme : String
  currency : String
  risk_tolerance : String
  investment_goal : Option String
  monthly_income : Option ℚ
  monthly_expenses : Option ℚ
deriving DecidableEq, Repr

/-- Row of the `mutual_funds` table (database.py:54-79).  All columns of the
schema are present except returns_1y/returns_3y/returns_5y, which no modeled
operation reads or writes.  NOT NULL columns (fund_name, amount_invested) are
plain values; the nullable ones are `Option`. -/
structure MFRow where
  id : Nat
  user_id : Nat
  fund_name : String
  fund_house : Option String
  scheme_code : Option String
  isin : Option String
  amount_invested : ℚ
  units : Option ℚ
  nav : Option ℚ
  purchase_date : Option String
  current_value : Option ℚ
  category : Option String
  subcategory : Option String
  expense_ratio : Option ℚ
  fund_manager : Option String
  risk_level : Option String
  created_at : String
  updated_at : String
deriving DecidableEq, Repr

/-- Row of the `stocks` table (database.py:82-106).  Columns kept are those
read by the modeled queries (user scoping, COUNT, SUM(quantity *
purchase_price), SUM(quantity * current_price), GROUP BY sector) plus the NOT
NULL stock_name; the remaining nullable metadata columns (symbol, exchange,
industry, market_cap, pe_ratio, dividend_yield, beta, stop_loss, target_price,
notes, purchase_date, timestamps) are never read by any modeled operation and
are omitted.  quantity is a nullable INTEGER and the price columns are
nullable REAL, modeled as `Option ℚ`. -/
structure StockRow where
  id : Nat
  user_id : Nat
  stock_name : String
  quantity : Option ℚ
  purchase_price : Option ℚ
  current_price : Option ℚ
  sector : Option String
deriving DecidableEq, Repr

/-- Row of the `expenses` table (database.py:109-127).  Columns kept are those
the modeled queries read: user_id, category (NOT NULL), amount (NOT NULL),
date, type (the expense|income discriminator, default text column).  The
remaining metadata columns (subcategory, description, payment_method, tags,
is_recurring, recurring_frequency, timestamps) are never read by a modeled
operation and are omitted. -/
structure ExpenseRow where
  id : Nat
  user_id : Nat
  category : String
  amount : ℚ
  date : Option String
  type : Option String
deriving DecidableEq, Repr

/-- Row of the `goals` table (database.py:130-148).  Columns kept are those
the modeled code touches; auto_invest and the timestamps are never read by a
modeled operation and are omitted. -/
structure GoalRow where
  id : Nat
  user_id : Nat
  goal_name : String
  description : Option String
  target_amount : ℚ
  current_amount : ℚ
  target_date : Option String
  category : Option String
  priority : Option String
  status : Option String
  monthly_contribution : Option ℚ
deriving DecidableEq, Repr

/-- Row of the `transactions` table (database.py:151-168).  No modeled code
path writes this table; the only modeled access is the user-scoped DELETE in
delete_user_account, so only id and user_id are kept. -/
structure TxRow where
  id : Nat
  user_id : Nat
deriving DecidableEq, Repr

/-- Row of the `ai_interactions` table (database.py:171-182).  Only the
user-scoped DELETE in delete_user_account touches it in the modeled code, so
only id and user_id are kept. -/
structure AIRow where
  id : Nat
  user_id : Nat
deriving DecidableEq, Repr

/-- Row of the `portfolio_snapshots` table (database.py:185-198).  Only the
user-scoped DELETE in delete_user_account touches it in the modeled code, so
only id and user_id are kept. -/
structure SnapRow where
  id : Nat
  user_id : Nat
deriving DecidableEq, Repr

/-- One sqlite table: its rows in insertion order plus the AUTOINCREMENT
counter that `cursor.lastrowid` reports on the next INSERT. -/
structure Table (α : Type) where
  rows : List α
  nextId : Nat
deriving DecidableEq, Repr

/-- A table is well formed when every stored id is below the autoincrement
counter, which sqlite AUTOINCREMENT guarantees (ids are never reused). -/
def Table.WF (t : Table α) (idOf : α → Nat) : Prop :=
  ∀ r ∈ t.rows, idOf r < t.nextId

instance (t : Table α) (idOf : α → Nat) [DecidableEq α] : Decidable (t.WF idOf) := by
  unfold Table.WF; infer_instance

/-- The whole sqlite database: the eight application tables created by
init_database (database.py:18-206). -/
structure DB where
  users : Table UserRow
  user_preferences : Table PrefsRow
  mutual_funds : Table MFRow
  stocks : Table StockRow
  expenses : Table ExpenseRow
  goals : Table GoalRow
  transactions : Table TxRow
  ai_interactions : Table AIRow
  portfolio_snapshots : Table SnapRow
deriving DecidableEq, Repr

/-- Append a row built from the freshly assigned id, as INSERT does:
`cursor.lastrowid` is the value returned (database.py:245-261). -/
def Table.insertWith (t : Table α) (mk : Nat → α) : Nat × Table α :=
  (t.nextId, { rows := t.rows ++ [mk t.nextId], nextId := t.nextId + 1 })

/-- The fixed salt constant of auth.py:20. -/
def salt : String := "santhoshswapna_portfolio_salt"

/-- auth.py:18-21 `hash_password`: SHA-256 of the password concatenated with
the fixed salt, as a hex digest.  The digest itself is the abstract parameter
`sha`. -/
def hash_password (sha : String → String) (password : String) : String :=
  sha (password ++ salt)

/-- Python `s or None` applied to a string field: empty strings are stored as
NULL (used throughout the add-investment form, mutual_funds.py:334-345). -/
def strOrNone (s : String) : Option String :=
  if s = "" then none else some s

/-- Python `x or d` applied to a nullable string column fetched from sqlite:
NULL and the empty string both fall back to the default (auth.py:94-99). -/
def pyOrStr (v : Option String) (d : String) : String :=
  match v with
  | none => d
  | some s => if s = "" then d else s

/-- Python `x or 0` applied to a nullable numeric column fetched from sqlite
(auth.py:100-101): NULL falls back to 0 (and a stored 0 stays 0). -/
def pyOrQ (v : Option ℚ) : ℚ :=
  match v with
  | none => 0
  | some x => x

/-- auth.py:23-74 `register_user`.  Validates the username and password
lengths, rejects an existing username (checked with
SELECT id FROM users WHERE username = ?), then inserts the users row and a
default user_preferences row.  `now` stands for `datetime.now().isoformat()`.
Returns the (success, message) pair of the source together with the resulting
database state. -/
def register_user (sha : String → String) (db : DB) (now : String)
    (username password email full_name phone : String) : (Bool × String) × DB :=
  if username.length < 3 then
    ((false, "Username must be at least 3 characters long"), db)
  else if password.length < 6 then
    ((false, "Password must be at least 6 characters long"), db)
  else
    let existing_user := db.users.rows.filter (fun u => u.username = username)
    if ¬ existing_user.isEmpty then
      ((false, "Username already exists"), db)
    else
      let password_hash := hash_password sha password
      let (user_id, users2) := db.users.insertWith (fun i =>
        { id := i, username := username, password_hash := password_hash,
          email := email, full_name := full_name, phone := phone,
          created_at := now, updated_at := now })
      let (_, prefs2) := db.user_preferences.insertWith (fun i =>
        { id := i, user_id := user_id, theme := "light", currency := "INR",
          risk_tolerance := "moderate", investment_goal := none,
          monthly_income := some 0, monthly_expenses := some 0 })
      ((true, "User registered successfully!"),
        { db with users := users2, user_preferences := prefs2 })

/-- The record authenticate_user builds from result[0] (auth.py:91-102). -/
structure AuthUser where
  id : Nat
  username : String
  email : String
  full_name : String
  phone : String
  created_at : String
  risk_tolerance : String
  investment_goal : String
  monthly_income : ℚ
  monthly_expenses : ℚ
deriving DecidableEq, Repr

/-- auth.py:76-108 `authenticate_user`: runs
SELECT u.id, u.username, ... FROM users u LEFT JOIN user_preferences p
ON u.id = p.user_id WHERE u.username = ? AND u.password_hash = ?
and builds a record from the first result row, applying the Python `or`
defaults of auth.py:94-101; returns `none` when no row matches.  The LEFT
JOIN pairs a matching user with its first preferences row, or with NULLs when
none exists. -/
def authenticate_user (sha : String → String) (db : DB)
    (username password : String) : Option AuthUser :=
  let password_hash := hash_password sha password
  let found := db.users.rows.filter
    (fun u => u.username = username ∧ u.password_hash = password_hash)
  match found with
  | [] => none
  | u :: _ =>
    let p := db.user_preferences.rows.find? (fun p => p.user_id = u.id)
    some
      { id := u.id, username := u.username,
        email := u.email, full_name := u.full_name, phone := u.phone,
        created_at := u.created_at,
        risk_tolerance := pyOrStr (p.map (fun r => r.risk_tolerance)) "moderate",
        investment_goal := pyOrStr (p.bind (fun r => r.investment_goal)) "",
        monthly_income := pyOrQ (p.bind (fun r => r.monthly_income)),
        monthly_expenses := pyOrQ (p.bind (fun r => r.monthly_expenses)) }

/-- SQL NULL-propagating multiplication: `quantity * purchase_price` is NULL
whenever either operand is NULL. -/
def sqlMul (a b : Option ℚ) : Option ℚ :=
  match a, b with
  | some x, some y => some (x * y)
  | _, _ => none

/-- SQL SUM over a column: NULL operands are ignored; the sum of no non-NULL
values is NULL. -/
def sqlSum (l : List (Option ℚ)) : Option ℚ :=
  let vs := l.filterMap id
  if vs.isEmpty then none else some vs.sum

/-- SQL COALESCE(x, d). -/
def sqlCoalesce (a : Option ℚ) (d : ℚ) : ℚ := a.getD d

/-- Group keys of a GROUP BY, in first-occurrence order (sqlite leaves the
group order unspecified; no modeled claim depends on it). -/
def dedupKeys [DecidableEq κ] (keys : List κ) : List κ :=
  keys.foldl (fun acc k => if k ∈ acc then acc else acc ++ [k]) []

/-- SQL `date >= cutoff` on a nullable TEXT date column: NULL compares to
NULL, which excludes the row; ISO date strings compare lexicographically. -/
def sqlDateGe (d : Option String) (cutoff : String) : Bool :=
  match d with
  | none => false
  | some s => cutoff ≤ s

/-- The rows `SELECT * FROM mutual_funds WHERE user_id = ?` returns (the
per-asset-class read used in mutual_funds.py:46-48, analytics.py:22-24,
ai_chat.py:232-234, main.py:295-297 and the WHERE clause of every
mutual-funds aggregate). -/
def mutualFundsFor (db : DB) (uid : Nat) : List MFRow :=
  db.mutual_funds.rows.filter (fun r => r.user_id = uid)

/-- The rows `SELECT * FROM stocks WHERE user_id = ?` returns. -/
def stocksFor (db : DB) (uid : Nat) : List StockRow :=
  db.stocks.rows.filter (fun r => r.user_id = uid)

/-- The rows `SELECT * FROM expenses WHERE user_id = ?` returns. -/
def expensesFor (db : DB) (uid : Nat) : List ExpenseRow :=
  db.expenses.rows.filter (fun r => r.user_id = uid)

/-- The rows `SELECT * FROM goals WHERE user_id = ?` returns (goals.py:77-80,
goals.py:205-207). -/
def goalsFor (db : DB) (uid : Nat) : List GoalRow :=
  db.goals.rows.filter (fun r => r.user_id = uid)

/-- The dictionary auth.py:208-216 builds. -/
structure UserStats where
  mutual_funds_count : Nat
  stocks_count : Nat
  expenses_count : Nat
  goals_count : Nat
  total_mf_investment : ℚ
  total_stocks_investment : ℚ
  total_investment : ℚ
deriving DecidableEq, Repr

/-- auth.py:175-222 `get_user_stats`: per-user COUNT(*) of mutual_funds,
stocks, expenses and goals, COALESCE(SUM(amount_invested), 0) over
mutual_funds and COALESCE(SUM(quantity * purchase_price), 0) over stocks,
every query filtered by `WHERE user_id = ?`. -/
def get_user_stats (db : DB) (uid : Nat) : UserStats :=
  let mf := mutualFundsFor db uid
  let stx := stocksFor db uid
  let mf_total := sqlCoalesce (sqlSum (mf.map (fun r => some r.amount_invested))) 0
  let stocks_total :=
    sqlCoalesce (sqlSum (stx.map (fun r => sqlMul r.quantity r.purchase_price))) 0
  { mutual_funds_count := mf.length
    stocks_count := stx.length
    expenses_count := (expensesFor db uid).length
    goals_count := (goalsFor db uid).length
    total_mf_investment := mf_total
    total_stocks_investment := stocks_total
    total_investment := mf_total + stocks_total }

/-- One row of the mutual-funds GROUP BY category aggregate
(database.py:308-317). -/
structure MFSummaryRow where
  total_funds : Nat
  total_invested : Option ℚ
  total_current_value : Option ℚ
  category : Option String
deriving DecidableEq, Repr

/-- One row of the stocks GROUP BY sector aggregate (database.py:321-330). -/
structure StockSummaryRow where
  total_stocks : Nat
  total_invested : Option ℚ
  total_current_value : Option ℚ
  sector : Option String
deriving DecidableEq, Repr

/-- One row of the expenses GROUP BY category aggregate
(database.py:334-342); the CASE WHEN arms turn non-matching (or NULL) types
into 0, so the sums are never NULL. -/
structure ExpenseSummaryRow where
  category : String
  total_expenses : ℚ
  total_income : ℚ
deriving DecidableEq, Repr

/-- One row of the goals GROUP BY status aggregate (database.py:346-355). -/
structure GoalSummaryRow where
  total_goals : Nat
  total_target : Option ℚ
  total_current : Option ℚ
  status : Option String
deriving DecidableEq, Repr

/-- The four tabular results get_user_portfolio_summary returns
(database.py:358-363). -/
structure PortfolioSummary where
  mutual_funds : List MFSummaryRow
  stocks : List StockSummaryRow
  expenses : List ExpenseSummaryRow
  goals : List GoalSummaryRow
deriving DecidableEq, Repr

/-- database.py:304-363 `get_user_portfolio_summary`: four aggregates, each
over the rows of one table satisfying `WHERE user_id = ?` (the expenses one
additionally keeps only the last 30 days, `date >= date('now', '-30 days')`,
whose boundary is the `cutoff` parameter), grouped by a categorical column
with COUNT(*) and SUMs per group. -/
def get_user_portfolio_summary (db : DB) (cutoff : String) (uid : Nat) :
    PortfolioSummary :=
  let mf := mutualFundsFor db uid
  let mfRows := (dedupKeys (mf.map (fun r => r.category))).map (fun c =>
    let g := mf.filter (fun r => r.category = c)
    { total_funds := g.length
      total_invested := sqlSum (g.map (fun r => some r.amount_invested))
      total_current_value := sqlSum (g.map (fun r => r.current_value))
      category := c : MFSummaryRow })
  let stx := stocksFor db uid
  let stockRows := (dedupKeys (stx.map (fun r => r.sector))).map (fun s =>
    let g := stx.filter (fun r => r.sector = s)
    { total_stocks := g.length
      total_invested := sqlSum (g.map (fun r => sqlMul r.quantity r.purchase_price))
      total_current_value := sqlSum (g.map (fun r => sqlMul r.quantity r.current_price))
      sector := s : StockSummaryRow })
  let ex := (expensesFor db uid).filter (fun r => sqlDateGe r.date cutoff)
  let exRows := (dedupKeys (ex.map (fun r => r.category))).map (fun c =>
    let g := ex.filter (fun r => r.category = c)
    { category := c
      total_expenses := (g.map (fun r =>
        if r.type = some "expense" then r.amount else 0)).sum
      total_income := (g.map (fun r =>
        if r.type = some "income" then r.amount else 0)).sum : ExpenseSummaryRow })
  let gl := goalsFor db uid
  let glRows := (dedupKeys (gl.map (fun r => r.status))).map (fun s =>
    let g := gl.filter (fun r => r.status = s)
    { total_goals := g.length
      total_target := sqlSum (g.map (fun r => some r.target_amount))
      total_current := sqlSum (g.map (fun r => some r.current_amount))
      status := s : GoalSummaryRow })
  { mutual_funds := mfRows, stocks := stockRows, expenses := exRows, goals := glRows }

/-- Models `insert_record('mutual_funds', data)` (database.py:245-265): the
row is appended and its id comes from AUTOINCREMENT (`cursor.lastrowid` is
returned), whatever id the caller-supplied record carried. -/
def DB.insertMutualFund (db : DB) (r : MFRow) : Nat × DB :=
  let (i, t) := db.mutual_funds.insertWith (fun n => { r with id := n })
  (i, { db with mutual_funds := t })

/-- Models `insert_record('stocks', data)` (database.py:245-265). -/
def DB.insertStock (db : DB) (r : StockRow) : Nat × DB :=
  let (i, t) := db.stocks.insertWith (fun n => { r with id := n })
  (i, { db with stocks := t })

/-- Models `insert_record('expenses', data)` (database.py:245-265). -/
def DB.insertExpense (db : DB) (r : ExpenseRow) : Nat × DB :=
  let (i, t) := db.expenses.insertWith (fun n => { r with id := n })
  (i, { db with expenses := t })

/-- Models `insert_record('goals', data)` (database.py:245-265). -/
def DB.insertGoal (db : DB) (r : GoalRow) : Nat × DB :=
  let (i, t) := db.goals.insertWith (fun n => { r with id := n })
  (i, { db with goals := t })

/-- Outcome of running one sqlite statement against the store: the fetched
rows (or other result), or an error raised by sqlite (bad SQL, missing
column, I/O failure). -/
inductive StoreOutcome (α : Type) where
  | ok (val : α)
  | err (msg : String)
deriving DecidableEq, Repr

/-- database.py:208-226 `execute_query`: the statement runs inside
try/except; on success the connection commits and `fetchall()` is returned,
and on a raised storage error the except branch logs and re-raises
(`raise`), so the fault propagates unchanged to the caller.  `outcome` is
what the underlying sqlite execution produced. -/
def execute_query (outcome : StoreOutcome α) : StoreOutcome α :=
  match outcome with
  | .ok rows => .ok rows
  | .err e => .err e

/-- database.py:228-243 `get_dataframe`: on success returns the fetched
table; on a raised storage error the except branch swallows the fault and
returns the empty DataFrame `pd.DataFrame()` (the empty list here), so the
caller never sees the error. -/
def get_dataframe (outcome : StoreOutcome (List α)) : List α :=
  match outcome with
  | .ok df => df
  | .err _ => []

/-- database.py:245-265 `insert_record`: on success returns
`cursor.lastrowid`; on a raised storage error the except branch logs and
re-raises, so the fault propagates unchanged. -/
def insert_record (outcome : StoreOutcome Nat) : StoreOutcome Nat :=
  match outcome with
  | .ok rid => .ok rid
  | .err e => .err e

/-- database.py:267-285 `update_record`: issues
UPDATE table SET ..., updated_at = CURRENT_TIMESTAMP WHERE id = ?.
`fault` is a storage error raised during execution, if any; the except
branch returns False.  Otherwise the statement updates every row whose id
matches — possibly none — and the function returns True regardless of how
many rows matched.  `apply` is the SET clause (field map plus the
updated_at re-stamp) as a row transformer. -/
def update_record (fault : Option String) (rows : List α) (idOf : α → Nat)
    (record_id : Nat) (apply : α → α) : Bool × List α :=
  match fault with
  | some _ => (false, rows)
  | none => (true, rows.map (fun r => if idOf r = record_id then apply r else r))

/-- database.py:287-302 `delete_record`: issues
DELETE FROM table WHERE id = ?.  `fault` is a storage error raised during
execution, if any; the except branch returns False.  Otherwise the statement
removes every row whose id matches — possibly none — and the function
returns True regardless of how many rows matched. -/
def delete_record (fault : Option String) (rows : List α) (idOf : α → Nat)
    (record_id : Nat) : Bool × List α :=
  match fault with
  | some _ => (false, rows)
  | none => (true, rows.filter (fun r => ¬ idOf r = record_id))

/-- The table list of auth.py:238-240 that delete_user_account iterates
over. -/
def accountTables : List String :=
  ["ai_interactions", "portfolio_snapshots", "transactions",
   "goals", "expenses", "stocks", "mutual_funds",
   "user_preferences", "users"]

/-- Semantics of `DELETE FROM {table} WHERE user_id = ?` (auth.py:243) for
each concrete table name.  Every dependent table of the schema
(database.py:39-198) has a user_id column, so the delete removes the rows of
that user; the `users` table (database.py:25-36) has columns id, username,
password_hash, email, full_name, phone, created_at, updated_at and no
user_id column, so sqlite rejects the statement with an OperationalError
(no such column: user_id), which execute_query re-raises. -/
def sqlDeleteByUserId (db : DB) (table : String) (uid : Nat) :
    Except String DB :=
  if table = "ai_interactions" then
    .ok { db with ai_interactions :=
      { db.ai_interactions with
        rows := db.ai_interactions.rows.filter (fun r => ¬ r.user_id = uid) } }
  else if table = "portfolio_snapshots" then
    .ok { db with portfolio_snapshots :=
      { db.portfolio_snapshots with
        rows := db.portfolio_snapshots.rows.filter (fun r => ¬ r.user_id = uid) } }
  else if table = "transactions" then
    .ok { db with transactions :=
      { db.transactions with
        rows := db.transactions.rows.filter (fun r => ¬ r.user_id = uid) } }
  else if table = "goals" then
    .ok { db with goals :=
      { db.goals with rows := db.goals.rows.filter (fun r => ¬ r.user_id = uid) } }
  else if table = "expenses" then
    .ok { db with expenses :=
      { db.expenses with
        rows := db.expenses.rows.filter (fun r => ¬ r.user_id = uid) } }
  else if table = "stocks" then
    .ok { db with stocks :=
      { db.stocks with rows := db.stocks.rows.filter (fun r => ¬ r.user_id = uid) } }
  else if table = "mutual_funds" then
    .ok { db with mutual_funds :=
      { db.mutual_funds with
        rows := db.mutual_funds.rows.filter (fun r => ¬ r.user_id = uid) } }
  else if table = "user_preferences" then
    .ok { db with user_preferences :=
      { db.user_preferences with
        rows := db.user_preferences.rows.filter (fun r => ¬ r.user_id = uid) } }
  else if table = "users" then
    .error "no such column: user_id"
  else
    .error ("no such table: " ++ table)

/-- The `for table in tables:` loop of auth.py:242-243: each DELETE is an
independent committed statement, so when one raises, the effects of the
earlier ones persist and the exception propagates (returning the state
reached so far together with the raised message). -/
def runDeletes (db : DB) (uid : Nat) : List String → DB × Option String
  | [] => (db, none)
  | t :: ts =>
    match sqlDeleteByUserId db t uid with
    | .ok db2 => runDeletes db2 uid ts
    | .error e => (db, some e)

/-- auth.py:224-249 `delete_user_account`: re-verifies the password with
SELECT id FROM users WHERE id = ? AND password_hash = ?, then runs the
per-table DELETE loop; any exception is caught by the outer except, which
returns (False, "Failed to delete account: " + message).  The resulting
database state is returned alongside the (success, message) pair. -/
def delete_user_account (sha : String → String) (db : DB) (user_id : Nat)
    (password : String) : (Bool × String) × DB :=
  let password_hash := hash_password sha password
  let user := db.users.rows.filter
    (fun u => u.id = user_id ∧ u.password_hash = password_hash)
  if user.isEmpty then
    ((false, "Password is incorrect"), db)
  else
    match runDeletes db user_id accountTables with
    | (db2, none) => ((true, "Account deleted successfully"), db2)
    | (db2, some e) => ((false, "Failed to delete account: " ++ e), db2)

/-- goals.py:102 (and the same guarded form for the overall metric at
goals.py:89): progress = (current_amount / target_amount) * 100 if
target_amount > 0 else 0. -/
def viewGoalProgress (current target : ℚ) : ℚ :=
  if target > 0 then current / target * 100 else 0

/-- ai_advisor.py:400 in `_summarize_goals` (and identically ai_advisor.py:322
in `_prepare_portfolio_context` and ai_advisor.py:394 for the overall
metric): progress = (current_amount / target_amount) * 100 with no zero
guard.  In the float semantics of the source a zero target produces a
non-finite value (inf or nan), modeled here as `none`; a nonzero target
produces the exact quotient. -/
def aiGoalProgress (current target : ℚ) : Option ℚ :=
  if target = 0 then none else some (current / target * 100)

/-- The fixed string ai_advisor.py:31 returns when no API key is
configured. -/
def notAvailableMsg : String :=
  "AI advisor is not available. Please configure your DeepSeek API key."

/-- What the requests.post round trip of ai_advisor.py:42-51 yields when it
completes without raising: the HTTP status code, and the parsed
choices[0].message.content of the JSON body (read only when the status is
200). -/
structure HttpResponse where
  status_code : Nat
  content : String
deriving DecidableEq, Repr

/-- ai_advisor.py:28-58 `_make_api_call`.  When the configured key is absent
(`not self.api_key`; the key defaults to the empty string, config.py:15) the
fixed unavailable message is returned before any network activity.
Otherwise `net` is the outcome of the network round trip: `.error` models
any exception raised inside the try block (connection failure, timeout,
body parsing), caught at ai_advisor.py:56-58; a response with status 200
yields its content, any other status yields the placeholder of
ai_advisor.py:54.  The function always returns a string — the except
branches convert every fault into text. -/
def make_api_call (api_key : String) (net : Except String HttpResponse) :
    String :=
  if api_key = "" then notAvailableMsg
  else
    match net with
    | .error e => "Error connecting to AI service: " ++ e
    | .ok resp =>
      if resp.status_code = 200 then resp.content
      else "AI service temporarily unavailable. Error: " ++ toString resp.status_code

/-- The form fields of the add-investment form
(mutual_funds.py:234-324).  Numeric inputs are rationals; unfilled text
fields are the empty string. -/
structure MFFormInput where
  fund_name : String
  fund_house : String
  amount_invested : ℚ
  units : ℚ
  nav : ℚ
  purchase_date : String
  scheme_code : String
  isin : String
  category : String
  subcategory : String
  expense_ratio : ℚ
  fund_manager : String
  risk_level : String
deriving DecidableEq, Repr

/-- The submit handler of mutual_funds.py:328-357: under the guard
`if fund_name and amount_invested > 0 and category` (Python truthiness:
nonempty strings), builds investment_data — with
current_value := amount_invested, the seed of mutual_funds.py:346 — and
inserts it via insert_record, reporting the new record id; otherwise no
write happens. -/
def render_add_investment (db : DB) (uid : Nat) (inp : MFFormInput)
    (now : String) : Option Nat × DB :=
  if inp.fund_name ≠ "" ∧ inp.amount_invested > 0 ∧ inp.category ≠ "" then
    let (rid, db2) := db.insertMutualFund
      { id := 0, user_id := uid, fund_name := inp.fund_name,
        fund_house := strOrNone inp.fund_house,
        scheme_code := strOrNone inp.scheme_code,
        isin := strOrNone inp.isin,
        amount_invested := inp.amount_invested,
        units := if inp.units > 0 then some inp.units else none,
        nav := if inp.nav > 0 then some inp.nav else none,
        purchase_date := some inp.purchase_date,
        current_value := some inp.amount_invested,
        category := some inp.category,
        subcategory := strOrNone inp.subcategory,
        expense_ratio := if inp.expense_ratio > 0 then some inp.expense_ratio else none,
        fund_manager := strOrNone inp.fund_manager,
        risk_level := strOrNone inp.risk_level,
        created_at := now, updated_at := now }
    (some rid, db2)
  else (none, db)

/-- `SELECT * FROM mutual_funds WHERE id = ?`: the immediate read-back of an
inserted holding. -/
def selectMutualFundById (db : DB) (rid : Nat) : List MFRow :=
  db.mutual_funds.rows.filter (fun r => r.id = rid)

/-- An empty database (all tables fresh), used by closed instantiations. -/
def dbW : DB :=
  ⟨⟨[], 1⟩, ⟨[], 1⟩, ⟨[], 1⟩, ⟨[], 1⟩, ⟨[], 1⟩, ⟨[], 1⟩, ⟨[], 1⟩, ⟨[], 1⟩, ⟨[], 1⟩⟩

/-- A concrete mutual-fund row owned by user 1. -/
def rmfW : MFRow :=
  ⟨0, 1, "HDFC Top 100", none, none, none, 1000, none, none, none,
    some 1000, some "Equity", none, none, none, none, "t", "t"⟩

/-- A concrete stock row owned by user 1. -/
def rstW : StockRow :=
  ⟨0, 1, "RELIANCE", some 10, some 2500, some 2500, some "Energy"⟩

/-- A concrete expense row owned by user 1. -/
def rexW : ExpenseRow :=
  ⟨0, 1, "Food", 100, some "2026-01-01", some "expense"⟩

/-- A concrete goal row owned by user 1. -/
def rglW : GoalRow :=
  ⟨0, 1, "Emergency Fund", none, 100000, 25000, some "2026-12-31",
    some "Savings", some "High", some "active", none⟩

/-- A database whose users table already holds alice (id 1), used by closed
instantiations about duplicate registration. -/
def dbAliceW : DB :=
  ⟨⟨[⟨1, "alice", "x", "", "", "", "t", "t"⟩], 2⟩,
    ⟨[], 1⟩, ⟨[], 1⟩, ⟨[], 1⟩, ⟨[], 1⟩, ⟨[], 1⟩, ⟨[], 1⟩, ⟨[], 1⟩, ⟨[], 1⟩⟩

/-! ## Theorems -/

/-- C5: when the underlying storage raises an error, execute_query and
insert_record propagate the fault to the caller, while get_dataframe
swallows it and returns the empty table; on success get_dataframe returns
the fetched table and insert_record the generated id. -/
theorem storage_fault_asymmetry (e : String) (rid : Nat)
    (rows : List (List ℚ)) :
    execute_query (StoreOutcome.err e : StoreOutcome (List (List ℚ)))
      = StoreOutcome.err e ∧
    insert_record (StoreOutcome.err e) = StoreOutcome.err e ∧
    get_dataframe (StoreOutcome.err e : StoreOutcome (List (List ℚ))) = [] ∧
    get_dataframe (StoreOutcome.ok rows) = rows ∧
    insert_record (StoreOutcome.ok rid) = StoreOutcome.ok rid :=
  ⟨rfl, rfl, rfl, rfl, rfl⟩

/-- C7: with no configured credential the advisory call returns the fixed
unavailable string whatever the network would have done; with a credential,
a raised network fault or a non-200 status each yield their human-readable
placeholder string.  The function is total into String, so no exception
reaches the caller. -/
theorem advisor_failure_semantics (k : String)
    (net : Except String HttpResponse) (e : String) (resp : HttpResponse)
    (hk : k ≠ "") (hs : resp.status_code ≠ 200) :
    make_api_call "" net = notAvailableMsg ∧
    make_api_call k (Except.error e) = "Error connecting to AI service: " ++ e ∧
    make_api_call k (Except.ok resp) =
      "AI service temporarily unavailable. Error: " ++ toString resp.status_code := by
  refine ⟨rfl, ?_, ?_⟩ <;> simp [make_api_call, hk, hs]

/-- Witness for advisor_failure_semantics at a concrete key, network fault
and status. -/
theorem advisor_failure_semantics_witness :
    make_api_call "" (Except.ok ⟨200, "hello"⟩) = notAvailableMsg ∧
    make_api_call "sk" (Except.error "timeout")
      = "Error connecting to AI service: " ++ "timeout" ∧
    make_api_call "sk" (Except.ok ⟨503, "oops"⟩)
      = "AI service temporarily unavailable. Error: " ++ toString (503 : Nat) :=
  advisor_failure_semantics "sk" (Except.ok ⟨200, "hello"⟩) "timeout"
    ⟨503, "oops"⟩ (by decide) (by decide)

/-- C10: when the UPDATE or DELETE statement executes without a storage
error, update_record and delete_record return true even when no row carries
the given id — and in that case the table is also left unchanged.  The
boolean reports the absence of a storage fault, not that a row was found. -/
theorem update_delete_report_fault_absence {α : Type} (rows : List α)
    (idOf : α → Nat) (rid : Nat) (apply : α → α)
    (h : ∀ r ∈ rows, idOf r ≠ rid) :
    update_record none rows idOf rid apply = (true, rows) ∧
    delete_record none rows idOf rid = (true, rows) := by
  constructor
  · unfold update_record
    have hmap : rows.map (fun r => if idOf r = rid then apply r else r) = rows := by
      calc rows.map (fun r => if idOf r = rid then apply r else r)
          = rows.map id := List.map_congr_left (fun r hr => if_neg (h r hr))
        _ = rows := List.map_id rows
    rw [hmap]
  · unfold delete_record
    have hfil : rows.filter (fun r => ¬ idOf r = rid) = rows :=
      List.filter_eq_self.mpr (fun r hr => by simp [h r hr])
    rw [hfil]

/-- Witness for update_delete_report_fault_absence on a one-row table whose
id does not match. -/
theorem update_delete_report_fault_absence_witness :
    update_record none [5] (fun n => n) 7 (fun n => n + 1) = (true, [5]) ∧
    delete_record none [5] (fun n => n) 7 = (true, [5]) :=
  update_delete_report_fault_absence [5] (fun n => n) 7 (fun n => n + 1)
    (by decide)

/-- C4 counterexample: in the AI goal summaries
(ai_advisor.py:322, 394, 400) the progress at a zero target is the
unguarded quotient — a non-finite float in the source, `none` here — and
not the 0 the claim requires. -/
theorem ai_goal_progress_zero_target_unguarded :
    aiGoalProgress 25000 0 ≠ some 0 := by
  decide

/-- C4 amended: the goal view (goals.py:89,102) computes
progress = current/target*100 when the target is positive and 0 otherwise,
while the AI context and goal summaries compute the unguarded quotient:
current/target*100 for a nonzero target, and a non-finite value (not 0)
when the target is 0. -/
theorem goal_progress_formula (c t : ℚ) (hpos : 0 < t) (hne : t ≠ 0) :
    viewGoalProgress c t = c / t * 100 ∧
    viewGoalProgress c 0 = 0 ∧
    aiGoalProgress c t = some (c / t * 100) ∧
    aiGoalProgress c 0 = none := by
  refine ⟨if_pos hpos, ?_, if_neg hne, if_pos rfl⟩
  unfold viewGoalProgress
  norm_num

/-- Witness for goal_progress_formula at the spec scenario goal
(current 25000, target 100000). -/
theorem goal_progress_formula_witness :
    viewGoalProgress 25000 100000 = 25000 / 100000 * 100 ∧
    viewGoalProgress 25000 0 = 0 ∧
    aiGoalProgress 25000 100000 = some (25000 / 100000 * 100) ∧
    aiGoalProgress 25000 0 = none :=
  goal_progress_formula 25000 100000 (by norm_num) (by norm_num)

/-- C3: a registration whose username has at least 3 characters, whose
password has at least 6, and whose username is not yet present succeeds,
and a subsequent authentication with the same credentials returns a user
record whose username equals the registered one. -/
theorem register_then_authenticate (sha : String → String) (db : DB)
    (now username password email full_name phone : String)
    (hu : 3 ≤ username.length) (hp : 6 ≤ password.length)
    (hfresh : ∀ u ∈ db.users.rows, u.username ≠ username) :
    (register_user sha db now username password email full_name phone).1.1 = true ∧
    ((authenticate_user sha
        (register_user sha db now username password email full_name phone).2
        username password).map (fun r => r.username)) = some username := by
  have hg1 : ¬ username.length < 3 := Nat.not_lt.mpr hu
  have hg2 : ¬ password.length < 6 := Nat.not_lt.mpr hp
  have hnil : db.users.rows.filter (fun u => (u.username = username : Bool)) = [] :=
    List.filter_eq_nil_iff.mpr (fun u hm => by simp [hfresh u hm])
  have hnil2 : db.users.rows.filter
      (fun u => decide (u.username = username) &&
        decide (u.password_hash = hash_password sha password)) = [] :=
    List.filter_eq_nil_iff.mpr (fun u hm => by simp [hfresh u hm])
  constructor
  · simp [register_user, hg1, hg2, hnil]
  · simp [register_user, hg1, hg2, hnil, authenticate_user, Table.insertWith,
      List.filter_append, hnil2]

/-- Witness for register_then_authenticate: registering alice with password
secret1 in an empty database, then authenticating. -/
theorem register_then_authenticate_witness :
    (register_user (fun s => s)
        ⟨⟨[], 1⟩, ⟨[], 1⟩, ⟨[], 1⟩, ⟨[], 1⟩, ⟨[], 1⟩, ⟨[], 1⟩, ⟨[], 1⟩, ⟨[], 1⟩, ⟨[], 1⟩⟩
        "2026-01-01" "alice" "secret1" "" "" "").1.1 = true ∧
    ((authenticate_user (fun s => s)
        (register_user (fun s => s)
          ⟨⟨[], 1⟩, ⟨[], 1⟩, ⟨[], 1⟩, ⟨[], 1⟩, ⟨[], 1⟩, ⟨[], 1⟩, ⟨[], 1⟩, ⟨[], 1⟩, ⟨[], 1⟩⟩
          "2026-01-01" "alice" "secret1" "" "" "").2
        "alice" "secret1").map (fun r => r.username)) = some "alice" :=
  register_then_authenticate (fun s => s)
    ⟨⟨[], 1⟩, ⟨[], 1⟩, ⟨[], 1⟩, ⟨[], 1⟩, ⟨[], 1⟩, ⟨[], 1⟩, ⟨[], 1⟩, ⟨[], 1⟩, ⟨[], 1⟩⟩
    "2026-01-01" "alice" "secret1" "" "" "" (by decide) (by decide)
    (by intro u hm; simp at hm)

/-- Helper: when a duplicate-username attempt reaches the duplicate check —
that is, both length validations of auth.py:28-32 pass — register_user
returns failure with the duplicate-username message and the database
unchanged. -/
theorem register_duplicate_rejected (sha : String → String) (db : DB)
    (now username password email full_name phone : String)
    (hu : 3 ≤ username.length) (hp : 6 ≤ password.length)
    (hdup : ∃ u ∈ db.users.rows, u.username = username) :
    register_user sha db now username password email full_name phone
      = ((false, "Username already exists"), db) := by
  have hg1 : ¬ username.length < 3 := Nat.not_lt.mpr hu
  have hg2 : ¬ password.length < 6 := Nat.not_lt.mpr hp
  obtain ⟨u, hm, hname⟩ := hdup
  have hne : db.users.rows.filter (fun v => (v.username = username : Bool)) ≠ [] := by
    intro hnil
    have : u ∈ db.users.rows.filter (fun v => (v.username = username : Bool)) :=
      List.mem_filter.mpr ⟨hm, by simp [hname]⟩
    rw [hnil] at this
    exact List.not_mem_nil u this
  simp [register_user, hg1, hg2, List.isEmpty_iff, hne]

/-- Closed instance of register_duplicate_rejected: re-registering alice on
a database that already holds an alice row. -/
theorem register_duplicate_rejected_witness :
    register_user (fun s => s)
      ⟨⟨[⟨1, "alice", "x", "", "", "", "t", "t"⟩], 2⟩,
        ⟨[], 1⟩, ⟨[], 1⟩, ⟨[], 1⟩, ⟨[], 1⟩, ⟨[], 1⟩, ⟨[], 1⟩, ⟨[], 1⟩, ⟨[], 1⟩⟩
      "2026-01-02" "alice" "hunter22" "" "" ""
      = ((false, "Username already exists"),
        ⟨⟨[⟨1, "alice", "x", "", "", "", "t", "t"⟩], 2⟩,
          ⟨[], 1⟩, ⟨[], 1⟩, ⟨[], 1⟩, ⟨[], 1⟩, ⟨[], 1⟩, ⟨[], 1⟩, ⟨[], 1⟩, ⟨[], 1⟩⟩) :=
  register_duplicate_rejected (fun s => s)
    ⟨⟨[⟨1, "alice", "x", "", "", "", "t", "t"⟩], 2⟩,
      ⟨[], 1⟩, ⟨[], 1⟩, ⟨[], 1⟩, ⟨[], 1⟩, ⟨[], 1⟩, ⟨[], 1⟩, ⟨[], 1⟩, ⟨[], 1⟩⟩
    "2026-01-02" "alice" "hunter22" "" "" "" (by decide) (by decide)
    ⟨⟨1, "alice", "x", "", "", "", "t", "t"⟩, by simp, rfl⟩

/-- C6 counterexample: the length validations of auth.py:28-32 run before
the duplicate check of auth.py:34-40, so a duplicate-username attempt whose
password is shorter than 6 characters fails with the password-length
message, not the duplicate-username message the claim asserts. -/
theorem register_duplicate_short_password_message :
    dbAliceW.users.rows.map (fun u => u.username) = ["alice"] ∧
    register_user (fun s => s) dbAliceW "2026-01-02" "alice" "short" "" "" ""
      = ((false, "Password must be at least 6 characters long"), dbAliceW) ∧
    "Password must be at least 6 characters long" ≠ "Username already exists" :=
  ⟨rfl, rfl, by decide⟩

/-- C6 amended: every registration attempt whose username already exists
fails and writes nothing — no second users row and no preferences row — and
the message is the duplicate-username one whenever the attempt passes the
two length validations that precede the duplicate check. -/
theorem register_duplicate_no_second_row (sha : String → String) (db : DB)
    (now username password email full_name phone : String)
    (hdup : ∃ u ∈ db.users.rows, u.username = username) :
    (register_user sha db now username password email full_name phone).1.1 = false ∧
    (register_user sha db now username password email full_name phone).2 = db ∧
    (3 ≤ username.length → 6 ≤ password.length →
      (register_user sha db now username password email full_name phone).1.2
        = "Username already exists") := by
  by_cases hlu : username.length < 3
  · refine ⟨by simp [register_user, hlu], by simp [register_user, hlu], ?_⟩
    intro h3 _
    exact absurd hlu (Nat.not_lt.mpr h3)
  · by_cases hlp : password.length < 6
    · refine ⟨by simp [register_user, hlu, hlp],
        by simp [register_user, hlu, hlp], ?_⟩
      intro _ h6
      exact absurd hlp (Nat.not_lt.mpr h6)
    · have key := register_duplicate_rejected sha db now username password
        email full_name phone (Nat.not_lt.mp hlu) (Nat.not_lt.mp hlp) hdup
      exact ⟨by rw [key], by rw [key], fun _ _ => by rw [key]⟩

/-- Witness for register_duplicate_no_second_row: re-registering alice with
a valid password on a database that already holds an alice row. -/
theorem register_duplicate_no_second_row_witness :
    (register_user (fun s => s) dbAliceW "2026-01-02" "alice" "hunter22"
      "" "" "").1.1 = false ∧
    (register_user (fun s => s) dbAliceW "2026-01-02" "alice" "hunter22"
      "" "" "").2 = dbAliceW ∧
    (3 ≤ "alice".length → 6 ≤ "hunter22".length →
      (register_user (fun s => s) dbAliceW "2026-01-02" "alice" "hunter22"
        "" "" "").1.2 = "Username already exists") :=
  register_duplicate_no_second_row (fun s => s) dbAliceW "2026-01-02"
    "alice" "hunter22" "" "" ""
    ⟨⟨1, "alice", "x", "", "", "", "t", "t"⟩, by decide, rfl⟩

/-- Both aggregators read the database only through the four user-scoped row
queries, so equal scoped reads give equal aggregates. -/
theorem aggregates_congr (db db' : DB) (uid : Nat)
    (h1 : mutualFundsFor db' uid = mutualFundsFor db uid)
    (h2 : stocksFor db' uid = stocksFor db uid)
    (h3 : expensesFor db' uid = expensesFor db uid)
    (h4 : goalsFor db' uid = goalsFor db uid) :
    get_user_stats db' uid = get_user_stats db uid ∧
    ∀ cutoff, get_user_portfolio_summary db' cutoff uid
      = get_user_portfolio_summary db cutoff uid := by
  constructor
  · unfold get_user_stats
    rw [h1, h2, h3, h4]
  · intro c
    unfold get_user_portfolio_summary
    rw [h1, h2, h3, h4]

/-- Inserting a mutual-fund row owned by another user leaves a user's scoped
mutual-funds read unchanged. -/
theorem mutualFundsFor_insert_ne (db : DB) (r : MFRow) (uid : Nat)
    (h : r.user_id ≠ uid) :
    mutualFundsFor (db.insertMutualFund r).2 uid = mutualFundsFor db uid := by
  simp [mutualFundsFor, DB.insertMutualFund, Table.insertWith,
    List.filter_append, h]

/-- Inserting a stock row owned by another user leaves a user's scoped
stocks read unchanged. -/
theorem stocksFor_insert_ne (db : DB) (r : StockRow) (uid : Nat)
    (h : r.user_id ≠ uid) :
    stocksFor (db.insertStock r).2 uid = stocksFor db uid := by
  simp [stocksFor, DB.insertStock, Table.insertWith, List.filter_append, h]

/-- Inserting an expense row owned by another user leaves a user's scoped
expenses read unchanged. -/
theorem expensesFor_insert_ne (db : DB) (r : ExpenseRow) (uid : Nat)
    (h : r.user_id ≠ uid) :
    expensesFor (db.insertExpense r).2 uid = expensesFor db uid := by
  simp [expensesFor, DB.insertExpense, Table.insertWith, List.filter_append, h]

/-- Inserting a goal row owned by another user leaves a user's scoped goals
read unchanged. -/
theorem goalsFor_insert_ne (db : DB) (r : GoalRow) (uid : Nat)
    (h : r.user_id ≠ uid) :
    goalsFor (db.insertGoal r).2 uid = goalsFor db uid := by
  simp [goalsFor, DB.insertGoal, Table.insertWith, List.filter_append, h]

/-- C2: an asset record inserted for user A is invisible to every read
scoped to a different user B.  For each of the four asset tables: the
scoped row query of user B returns exactly what it returned before the
insert and contains no row of user A at all, and get_user_stats and
get_user_portfolio_summary for user B are unchanged — every one of those
reads filters by the user identifier. -/
theorem cross_user_isolation (db : DB) (uidA uidB : Nat) (hne : uidA ≠ uidB)
    (rmf : MFRow) (hmf : rmf.user_id = uidA)
    (rst : StockRow) (hst : rst.user_id = uidA)
    (rex : ExpenseRow) (hex : rex.user_id = uidA)
    (rgl : GoalRow) (hgl : rgl.user_id = uidA)
    (cutoff : String) :
    (mutualFundsFor (db.insertMutualFund rmf).2 uidB = mutualFundsFor db uidB ∧
      (∀ x ∈ mutualFundsFor (db.insertMutualFund rmf).2 uidB, x.user_id ≠ uidA) ∧
      get_user_stats (db.insertMutualFund rmf).2 uidB = get_user_stats db uidB ∧
      get_user_portfolio_summary (db.insertMutualFund rmf).2 cutoff uidB
        = get_user_portfolio_summary db cutoff uidB) ∧
    (stocksFor (db.insertStock rst).2 uidB = stocksFor db uidB ∧
      (∀ x ∈ stocksFor (db.insertStock rst).2 uidB, x.user_id ≠ uidA) ∧
      get_user_stats (db.insertStock rst).2 uidB = get_user_stats db uidB ∧
      get_user_portfolio_summary (db.insertStock rst).2 cutoff uidB
        = get_user_portfolio_summary db cutoff uidB) ∧
    (expensesFor (db.insertExpense rex).2 uidB = expensesFor db uidB ∧
      (∀ x ∈ expensesFor (db.insertExpense rex).2 uidB, x.user_id ≠ uidA) ∧
      get_user_stats (db.insertExpense rex).2 uidB = get_user_stats db uidB ∧
      get_user_portfolio_summary (db.insertExpense rex).2 cutoff uidB
        = get_user_portfolio_summary db cutoff uidB) ∧
    (goalsFor (db.insertGoal rgl).2 uidB = goalsFor db uidB ∧
      (∀ x ∈ goalsFor (db.insertGoal rgl).2 uidB, x.user_id ≠ uidA) ∧
      get_user_stats (db.insertGoal rgl).2 uidB = get_user_stats db uidB ∧
      get_user_portfolio_summary (db.insertGoal rgl).2 cutoff uidB
        = get_user_portfolio_summary db cutoff uidB) := by
  have hmf' : rmf.user_id ≠ uidB := hmf ▸ hne
  have hst' : rst.user_id ≠ uidB := hst ▸ hne
  have hex' : rex.user_id ≠ uidB := hex ▸ hne
  have hgl' : rgl.user_id ≠ uidB := hgl ▸ hne
  have hBA : uidB ≠ uidA := Ne.symm hne
  have emf := mutualFundsFor_insert_ne db rmf uidB hmf'
  have est := stocksFor_insert_ne db rst uidB hst'
  have eex := expensesFor_insert_ne db rex uidB hex'
  have egl := goalsFor_insert_ne db rgl uidB hgl'
  have amf := aggregates_congr db (db.insertMutualFund rmf).2 uidB emf rfl rfl rfl
  have ast := aggregates_congr db (db.insertStock rst).2 uidB rfl est rfl rfl
  have aex := aggregates_congr db (db.insertExpense rex).2 uidB rfl rfl eex rfl
  have agl := aggregates_congr db (db.insertGoal rgl).2 uidB rfl rfl rfl egl
  refine ⟨⟨emf, ?_, amf.1, amf.2 cutoff⟩, ⟨est, ?_, ast.1, ast.2 cutoff⟩,
    ⟨eex, ?_, aex.1, aex.2 cutoff⟩, ⟨egl, ?_, agl.1, agl.2 cutoff⟩⟩
  · intro x hx
    have := List.mem_filter.mp hx
    simp only [decide_eq_true_eq] at this
    exact this.2 ▸ hBA
  · intro x hx
    have := List.mem_filter.mp hx
    simp only [decide_eq_true_eq] at this
    exact this.2 ▸ hBA
  · intro x hx
    have := List.mem_filter.mp hx
    simp only [decide_eq_true_eq] at this
    exact this.2 ▸ hBA
  · intro x hx
    have := List.mem_filter.mp hx
    simp only [decide_eq_true_eq] at this
    exact this.2 ▸ hBA

/-- Witness for cross_user_isolation: user 1 owns one record of each asset
class, inserted into an empty database; every read scoped to user 2 is
unaffected. -/
theorem cross_user_isolation_witness :
    (mutualFundsFor (dbW.insertMutualFund rmfW).2 2 = mutualFundsFor dbW 2 ∧
      (∀ x ∈ mutualFundsFor (dbW.insertMutualFund rmfW).2 2, x.user_id ≠ 1) ∧
      get_user_stats (dbW.insertMutualFund rmfW).2 2 = get_user_stats dbW 2 ∧
      get_user_portfolio_summary (dbW.insertMutualFund rmfW).2 "2026-09-12" 2
        = get_user_portfolio_summary dbW "2026-09-12" 2) ∧
    (stocksFor (dbW.insertStock rstW).2 2 = stocksFor dbW 2 ∧
      (∀ x ∈ stocksFor (dbW.insertStock rstW).2 2, x.user_id ≠ 1) ∧
      get_user_stats (dbW.insertStock rstW).2 2 = get_user_stats dbW 2 ∧
      get_user_portfolio_summary (dbW.insertStock rstW).2 "2026-09-12" 2
        = get_user_portfolio_summary dbW "2026-09-12" 2) ∧
    (expensesFor (dbW.insertExpense rexW).2 2 = expensesFor dbW 2 ∧
      (∀ x ∈ expensesFor (dbW.insertExpense rexW).2 2, x.user_id ≠ 1) ∧
      get_user_stats (dbW.insertExpense rexW).2 2 = get_user_stats dbW 2 ∧
      get_user_portfolio_summary (dbW.insertExpense rexW).2 "2026-09-12" 2
        = get_user_portfolio_summary dbW "2026-09-12" 2) ∧
    (goalsFor (dbW.insertGoal rglW).2 2 = goalsFor dbW 2 ∧
      (∀ x ∈ goalsFor (dbW.insertGoal rglW).2 2, x.user_id ≠ 1) ∧
      get_user_stats (dbW.insertGoal rglW).2 2 = get_user_stats dbW 2 ∧
      get_user_portfolio_summary (dbW.insertGoal rglW).2 "2026-09-12" 2
        = get_user_portfolio_summary dbW "2026-09-12" 2) :=
  cross_user_isolation dbW 1 2 (by decide) rmfW rfl rstW rfl rexW rfl
    rglW rfl "2026-09-12"

/-- C8: a valid fund-holding add (nonempty fund name, positive amount,
nonempty category) inserts one row whose id is the fresh AUTOINCREMENT
value, and immediately reading that id back returns exactly one record with
amount_invested equal to the entered amount and current_value seeded to the
same amount. -/
theorem add_investment_roundtrip (db : DB) (uid : Nat) (inp : MFFormInput)
    (now : String)
    (hname : inp.fund_name ≠ "") (hamt : 0 < inp.amount_invested)
    (hcat : inp.category ≠ "")
    (hwf : db.mutual_funds.WF (fun r => r.id)) :
    (render_add_investment db uid inp now).1 = some db.mutual_funds.nextId ∧
    (selectMutualFundById (render_add_investment db uid inp now).2
        db.mutual_funds.nextId).map
      (fun r => (r.amount_invested, r.current_value))
      = [(inp.amount_invested, some inp.amount_invested)] := by
  have hguard : inp.fund_name ≠ "" ∧ inp.amount_invested > 0 ∧ inp.category ≠ "" :=
    ⟨hname, hamt, hcat⟩
  have hfil : db.mutual_funds.rows.filter
      (fun r => (r.id = db.mutual_funds.nextId : Bool)) = [] :=
    List.filter_eq_nil_iff.mpr
      (fun r hm => by simp [Nat.ne_of_lt (hwf r hm)])
  constructor
  · simp [render_add_investment, hguard, DB.insertMutualFund, Table.insertWith]
  · simp [render_add_investment, hguard, DB.insertMutualFund, Table.insertWith,
      selectMutualFundById, List.filter_append, hfil]

/-- Witness for add_investment_roundtrip: adding a 5000-rupee equity fund to
an empty database. -/
theorem add_investment_roundtrip_witness :
    (render_add_investment
        ⟨⟨[], 1⟩, ⟨[], 1⟩, ⟨[], 1⟩, ⟨[], 1⟩, ⟨[], 1⟩, ⟨[], 1⟩, ⟨[], 1⟩, ⟨[], 1⟩, ⟨[], 1⟩⟩
        1 ⟨"HDFC Top 100", "HDFC", 5000, 0, 0, "2026-01-03", "", "", "Equity",
          "", 0, "", ""⟩ "2026-01-03").1 = some 1 ∧
    (selectMutualFundById
        (render_add_investment
          ⟨⟨[], 1⟩, ⟨[], 1⟩, ⟨[], 1⟩, ⟨[], 1⟩, ⟨[], 1⟩, ⟨[], 1⟩, ⟨[], 1⟩, ⟨[], 1⟩, ⟨[], 1⟩⟩
          1 ⟨"HDFC Top 100", "HDFC", 5000, 0, 0, "2026-01-03", "", "", "Equity",
            "", 0, "", ""⟩ "2026-01-03").2 1).map
      (fun r => (r.amount_invested, r.current_value)) = [(5000, some 5000)] :=
  add_investment_roundtrip
    ⟨⟨[], 1⟩, ⟨[], 1⟩, ⟨[], 1⟩, ⟨[], 1⟩, ⟨[], 1⟩, ⟨[], 1⟩, ⟨[], 1⟩, ⟨[], 1⟩, ⟨[], 1⟩⟩
    1 ⟨"HDFC Top 100", "HDFC", 5000, 0, 0, "2026-01-03", "", "", "Equity",
      "", 0, "", ""⟩ "2026-01-03"
    (by decide) (by norm_num) (by decide) (by intro r hr; simp at hr)

/-- authenticate_user succeeds whenever a stored user row carries the given
username and the hash of the given password. -/
theorem authenticate_isSome_of_mem (sha : String → String) (db : DB)
    (pw : String) (u : UserRow) (hu : u ∈ db.users.rows)
    (hhash : u.password_hash = hash_password sha pw) :
    (authenticate_user sha db u.username pw).isSome = true := by
  have hmem : u ∈ db.users.rows.filter
      (fun v => decide (v.username = u.username ∧
        v.password_hash = hash_password sha pw)) :=
    List.mem_filter.mpr ⟨hu, by simp [hhash]⟩
  simp only [authenticate_user]
  cases hq : db.users.rows.filter
      (fun v => decide (v.username = u.username ∧
        v.password_hash = hash_password sha pw)) with
  | nil =>
    rw [hq] at hmem
    exact absurd hmem (List.not_mem_nil u)
  | cons a t =>
    rfl

/-- C1: the account-deletion loop issues
DELETE FROM users WHERE user_id = ?, but the users table has no user_id
column, so with a correct password delete_user_account deletes the rows of
the eight dependent tables (in particular every stock and fund row of the
user is gone), then fails on the users table: the user row survives, the
function reports failure, and authenticating with the same credentials
still succeeds afterwards. -/
theorem delete_account_user_row_survives (sha : String → String) (db : DB)
    (uid : Nat) (pw : String) (u : UserRow)
    (hu : u ∈ db.users.rows) (hid : u.id = uid)
    (hhash : u.password_hash = hash_password sha pw) :
    (delete_user_account sha db uid pw).1
      = (false, "Failed to delete account: no such column: user_id") ∧
    (delete_user_account sha db uid pw).2.users = db.users ∧
    (delete_user_account sha db uid pw).2.stocks.rows
      = db.stocks.rows.filter (fun r => ¬ r.user_id = uid) ∧
    (delete_user_account sha db uid pw).2.mutual_funds.rows
      = db.mutual_funds.rows.filter (fun r => ¬ r.user_id = uid) ∧
    (delete_user_account sha db uid pw).2.user_preferences.rows
      = db.user_preferences.rows.filter (fun r => ¬ r.user_id = uid) ∧
    (authenticate_user sha (delete_user_account sha db uid pw).2
        u.username pw).isSome = true := by
  have hmem : u ∈ db.users.rows.filter
      (fun v => decide (v.id = uid ∧ v.password_hash = hash_password sha pw)) :=
    List.mem_filter.mpr ⟨hu, by simp [hid, hhash]⟩
  have hne : db.users.rows.filter
      (fun v => decide (v.id = uid ∧ v.password_hash = hash_password sha pw)) ≠ [] := by
    intro hnil
    rw [hnil] at hmem
    exact List.not_mem_nil u hmem
  have hrun : runDeletes db uid accountTables
      = ({ db with
          ai_interactions := { db.ai_interactions with
            rows := db.ai_interactions.rows.filter (fun r => ¬ r.user_id = uid) },
          portfolio_snapshots := { db.portfolio_snapshots with
            rows := db.portfolio_snapshots.rows.filter (fun r => ¬ r.user_id = uid) },
          transactions := { db.transactions with
            rows := db.transactions.rows.filter (fun r => ¬ r.user_id = uid) },
          goals := { db.goals with
            rows := db.goals.rows.filter (fun r => ¬ r.user_id = uid) },
          expenses := { db.expenses with
            rows := db.expenses.rows.filter (fun r => ¬ r.user_id = uid) },
          stocks := { db.stocks with
            rows := db.stocks.rows.filter (fun r => ¬ r.user_id = uid) },
          mutual_funds := { db.mutual_funds with
            rows := db.mutual_funds.rows.filter (fun r => ¬ r.user_id = uid) },
          user_preferences := { db.user_preferences with
            rows := db.user_preferences.rows.filter (fun r => ¬ r.user_id = uid) } },
        some "no such column: user_id") := by
    rfl
  have hres : delete_user_account sha db uid pw
      = ((false, "Failed to delete account: no such column: user_id"),
        (runDeletes db uid accountTables).1) := by
    simp only [delete_user_account, List.isEmpty_iff]
    rw [if_neg hne, hrun]
    rfl
  refine ⟨?_, ?_, ?_, ?_, ?_, ?_⟩
  · rw [hres]
  · rw [hres, hrun]
  · rw [hres, hrun]
  · rw [hres, hrun]
  · rw [hres, hrun]
  · refine authenticate_isSome_of_mem sha _ pw u ?_ hhash
    rw [hres, hrun]
    exact hu

/-- Witness for delete_account_user_row_survives: alice (id 1, correct
password) with one stock row; after the call the stock row is gone, the
user row remains, the call reports failure, and alice can still log in. -/
theorem delete_account_user_row_survives_witness :
    (delete_user_account (fun s => s)
        ⟨⟨[⟨1, "alice", hash_password (fun s => s) "secret1", "", "", "", "t", "t"⟩], 2⟩,
          ⟨[⟨1, 1, "light", "INR", "moderate", none, some 0, some 0⟩], 2⟩,
          ⟨[], 1⟩,
          ⟨[⟨1, 1, "RELIANCE", some 10, some 2500, some 2500, some "Energy"⟩], 2⟩,
          ⟨[], 1⟩, ⟨[], 1⟩, ⟨[], 1⟩, ⟨[], 1⟩, ⟨[], 1⟩⟩
        1 "secret1").1
      = (false, "Failed to delete account: no such column: user_id") ∧
    (delete_user_account (fun s => s)
        ⟨⟨[⟨1, "alice", hash_password (fun s => s) "secret1", "", "", "", "t", "t"⟩], 2⟩,
          ⟨[⟨1, 1, "light", "INR", "moderate", none, some 0, some 0⟩], 2⟩,
          ⟨[], 1⟩,
          ⟨[⟨1, 1, "RELIANCE", some 10, some 2500, some 2500, some "Energy"⟩], 2⟩,
          ⟨[], 1⟩, ⟨[], 1⟩, ⟨[], 1⟩, ⟨[], 1⟩, ⟨[], 1⟩⟩
        1 "secret1").2.users
      = ⟨[⟨1, "alice", hash_password (fun s => s) "secret1", "", "", "", "t", "t"⟩], 2⟩ ∧
    (delete_user_account (fun s => s)
        ⟨⟨[⟨1, "alice", hash_password (fun s => s) "secret1", "", "", "", "t", "t"⟩], 2⟩,
          ⟨[⟨1, 1, "light", "INR", "moderate", none, some 0, some 0⟩], 2⟩,
          ⟨[], 1⟩,
          ⟨[⟨1, 1, "RELIANCE", some 10, some 2500, some 2500, some "Energy"⟩], 2⟩,
          ⟨[], 1⟩, ⟨[], 1⟩, ⟨[], 1⟩, ⟨[], 1⟩, ⟨[], 1⟩⟩
        1 "secret1").2.stocks.rows
      = List.filter (fun r => ¬ r.user_id = 1)
          [(⟨1, 1, "RELIANCE", some 10, some 2500, some 2500, some "Energy"⟩ : StockRow)] ∧
    (delete_user_account (fun s => s)
        ⟨⟨[⟨1, "alice", hash_password (fun s => s) "secret1", "", "", "", "t", "t"⟩], 2⟩,
          ⟨[⟨1, 1, "light", "INR", "moderate", none, some 0, some 0⟩], 2⟩,
          ⟨[], 1⟩,
          ⟨[⟨1, 1, "RELIANCE", some 10, some 2500, some 2500, some "Energy"⟩], 2⟩,
          ⟨[], 1⟩, ⟨[], 1⟩, ⟨[], 1⟩, ⟨[], 1⟩, ⟨[], 1⟩⟩
        1 "secret1").2.mutual_funds.rows
      = List.filter (fun r => ¬ r.user_id = 1) ([] : List MFRow) ∧
    (delete_user_account (fun s => s)
        ⟨⟨[⟨1, "alice", hash_password (fun s => s) "secret1", "", "", "", "t", "t"⟩], 2⟩,
          ⟨[⟨1, 1, "light", "INR", "moderate", none, some 0, some 0⟩], 2⟩,
          ⟨[], 1⟩,
          ⟨[⟨1, 1, "RELIANCE", some 10, some 2500, some 2500, some "Energy"⟩], 2⟩,
          ⟨[], 1⟩, ⟨[], 1⟩, ⟨[], 1⟩, ⟨[], 1⟩, ⟨[], 1⟩⟩
        1 "secret1").2.user_preferences.rows
      = List.filter (fun r => ¬ r.user_id = 1)
          [(⟨1, 1, "light", "INR", "moderate", none, some 0, some 0⟩ : PrefsRow)] ∧
    (authenticate_user (fun s => s)
        (delete_user_account (fun s => s)
          ⟨⟨[⟨1, "alice", hash_password (fun s => s) "secret1", "", "", "", "t", "t"⟩], 2⟩,
            ⟨[⟨1, 1, "light", "INR", "moderate", none, some 0, some 0⟩], 2⟩,
            ⟨[], 1⟩,
            ⟨[⟨1, 1, "RELIANCE", some 10, some 2500, some 2500, some "Energy"⟩], 2⟩,
            ⟨[], 1⟩, ⟨[], 1⟩, ⟨[], 1⟩, ⟨[], 1⟩, ⟨[], 1⟩⟩
          1 "secret1").2
        "alice" "secret1").isSome = true :=
  delete_account_user_row_survives (fun s => s)
    ⟨⟨[⟨1, "alice", hash_password (fun s => s) "secret1", "", "", "", "t", "t"⟩], 2⟩,
      ⟨[⟨1, 1, "light", "INR", "moderate", none, some 0, some 0⟩], 2⟩,
      ⟨[], 1⟩,
      ⟨[⟨1, 1, "RELIANCE", some 10, some 2500, some 2500, some "Energy"⟩], 2⟩,
      ⟨[], 1⟩, ⟨[], 1⟩, ⟨[], 1⟩, ⟨[], 1⟩, ⟨[], 1⟩⟩
    1 "secret1"
    ⟨1, "alice", hash_password (fun s => s) "secret1", "", "", "", "t", "t"⟩
    (by simp) rfl rfl

/-- C9: the password hash is a deterministic function of the password alone
over the one fixed salt constant — equal passwords give equal hashes — and
consequently two distinct users who register with the same password end up
with identical stored password hashes, both equal to the digest of the
password concatenated with the shared salt. -/
theorem fixed_salt_same_hash (sha : String → String) (db : DB)
    (now1 now2 u1 u2 p e1 f1 ph1 e2 f2 ph2 : String)
    (h1 : 3 ≤ u1.length) (h2 : 3 ≤ u2.length) (hp : 6 ≤ p.length)
    (hne : u1 ≠ u2)
    (hfresh : ∀ r ∈ db.users.rows, r.username ≠ u1 ∧ r.username ≠ u2) :
    (∀ q1 q2 : String, q1 = q2 → hash_password sha q1 = hash_password sha q2) ∧
    ((register_user sha (register_user sha db now1 u1 p e1 f1 ph1).2
        now2 u2 p e2 f2 ph2).2.users.rows.find?
      (fun r => r.username = u1)).map (fun r => r.password_hash)
      = some (hash_password sha p) ∧
    ((register_user sha (register_user sha db now1 u1 p e1 f1 ph1).2
        now2 u2 p e2 f2 ph2).2.users.rows.find?
      (fun r => r.username = u2)).map (fun r => r.password_hash)
      = some (hash_password sha p) := by
  have hg1 : ¬ u1.length < 3 := Nat.not_lt.mpr h1
  have hg2 : ¬ u2.length < 3 := Nat.not_lt.mpr h2
  have hgp : ¬ p.length < 6 := Nat.not_lt.mpr hp
  have hnil1 : db.users.rows.filter (fun r => (r.username = u1 : Bool)) = [] :=
    List.filter_eq_nil_iff.mpr (fun r hm => by simp [(hfresh r hm).1])
  have hnil2 : db.users.rows.filter (fun r => (r.username = u2 : Bool)) = [] :=
    List.filter_eq_nil_iff.mpr (fun r hm => by simp [(hfresh r hm).2])
  have hfind1 : db.users.rows.find? (fun r => (r.username = u1 : Bool)) = none :=
    List.find?_eq_none.mpr (fun r hm => by simp [(hfresh r hm).1])
  have hfind2 : db.users.rows.find? (fun r => (r.username = u2 : Bool)) = none :=
    List.find?_eq_none.mpr (fun r hm => by simp [(hfresh r hm).2])
  refine ⟨fun q1 q2 hq => by rw [hq], ?_, ?_⟩ <;>
    simp [register_user, hg1, hg2, hgp, hnil1, hnil2, Table.insertWith,
      List.filter_append, List.find?_append, hfind1, hfind2, hne, Ne.symm hne]

/-- Witness for fixed_salt_same_hash: alice and bob both register with
password secret1 in an empty database. -/
theorem fixed_salt_same_hash_witness :
    (∀ q1 q2 : String, q1 = q2 →
      hash_password (fun s => s) q1 = hash_password (fun s => s) q2) ∧
    ((register_user (fun s => s)
        (register_user (fun s => s)
          ⟨⟨[], 1⟩, ⟨[], 1⟩, ⟨[], 1⟩, ⟨[], 1⟩, ⟨[], 1⟩, ⟨[], 1⟩, ⟨[], 1⟩, ⟨[], 1⟩, ⟨[], 1⟩⟩
          "2026-01-01" "alice" "secret1" "" "" "").2
        "2026-01-02" "bob" "secret1" "" "" "").2.users.rows.find?
      (fun r => r.username = "alice")).map (fun r => r.password_hash)
      = some (hash_password (fun s => s) "secret1") ∧
    ((register_user (fun s => s)
        (register_user (fun s => s)
          ⟨⟨[], 1⟩, ⟨[], 1⟩, ⟨[], 1⟩, ⟨[], 1⟩, ⟨[], 1⟩, ⟨[], 1⟩, ⟨[], 1⟩, ⟨[], 1⟩, ⟨[], 1⟩⟩
          "2026-01-01" "alice" "secret1" "" "" "").2
        "2026-01-02" "bob" "secret1" "" "" "").2.users.rows.find?
      (fun r => r.username = "bob")).map (fun r => r.password_hash)
      = some (hash_password (fun s => s) "secret1") :=
  fixed_salt_same_hash (fun s => s)
    ⟨⟨[], 1⟩, ⟨[], 1⟩, ⟨[], 1⟩, ⟨[], 1⟩, ⟨[], 1⟩, ⟨[], 1⟩, ⟨[], 1⟩, ⟨[], 1⟩, ⟨[], 1⟩⟩
    "2026-01-01" "2026-01-02" "alice" "bob" "secret1" "" "" "" "" "" ""
    (by decide) (by decide) (by decide) (by decide)
    (by intro r hm; simp at hm)

end Portfolio
